import Mathlib

/-!
Shallow embedding of backup.py (harvard-lil/rds-backup): a single sequential
CLI command that restores an RDS snapshot into an ephemeral instance, dumps
the database, optionally sanitizes and syncs the dump, and deletes the
ephemeral instance.

The embedding models the command as a pure interpreter: a Config (the CLI
arguments and flags) and an Env (the responses of the cloud API, the
subprocesses, the filesystem, and the random salt drawn by passlib) determine
a trace of external events and either a normal result or a raised Python
exception (modelled as Except Err). Line numbers in doc comments refer to
src/backup.py.
-/

namespace RdsBackup

/-- BackupJobConfig: the CLI arguments and options of the backup command
(backup.py lines 16-42). instName is the positional argument named
instance in the source (a reserved word in Lean). sync_and_delete and
healthcheck are none when the option was not given. -/
structure Config where
  instName : String
  database : String
  sg : String
  billto : String
  snapshot : Bool
  fix_perms : Bool
  strip_passwords : Bool
  password : String
  sync_and_delete : Option String
  sleep : Nat
  healthcheck : Option String
  source : String

/-- Metadata of one local file: its permission mode bits and its contents.
The byte stream written by the dump tools is outside the model; only
creation, permission mode and deletion of the artifact are tracked. -/
structure FileData where
  mode : Nat
  contents : String
deriving DecidableEq

/-- The local filesystem as an association list from path to file data. -/
abbrev FS := List (String × FileData)

/-- Environment of one run: everything the program reads from the outside
world. digestFn stands for the opaque PBKDF2-HMAC-SHA256 checksum
computation of passlib, a deterministic function of rounds, salt and
password; salt is the fresh random salt passlib draws on each hash() call.
dumpExit is the wait status of mysqldump resp. the return code of pg_dump,
xzExit the exit status of the xz compressor, rsyncExit1/rsyncExit2 the exit
statuses of the first and second rsync invocation. -/
structure Env where
  timestamp : String
  autoSnapshots : List String
  engine : String
  host : String
  port : Nat
  user : String
  fs : FS
  digestFn : Nat → String → String → String
  salt : String
  dumpExit : Int
  xzExit : Int
  rsyncExit1 : Int
  rsyncExit2 : Int

/-- Python exceptions the straight-line script can raise. emptyMax is the
ValueError of max() on an empty sequence (line 75), strptimeFail the
ValueError of datetime.strptime (line 80), fileExists the FileExistsError of
os.open with O_CREAT|O_EXCL (lines 129/156), unboundReturncode the NameError
at line 202 when neither engine branch assigned returncode. An uncaught
exception terminates the program at that point: no later line runs. -/
inductive Err where
  | emptyMax
  | strptimeFail
  | fileExists
  | unboundReturncode
deriving DecidableEq

/-- Observable external actions of the program, in program order. -/
inductive Event where
  | createSnapshot (sid : String)
  | waitSnapshot (sid : String)
  | describeSnapshots (instName : String)
  | restoreInstance (dbi latest : String)
  | waitInstance (dbi : String)
  | describeInstance (dbi : String)
  | modifyInstance (dbi sg : String)
  | sleepFor (n : Nat)
  | runMysqldump (db host user : String) (port : Nat)
  | runXz (exitCode : Int)
  | grantPerms (host : String)
  | sanitize (stmt : String)
  | runPgDump (db dumpfile : String)
  | rsync (flag src dest : String)
  | unlink (p : String)
  | deleteInstance (dbi : String) (skipFinal : Bool)
  | deleteSnapshot (sid : String)
  | healthcheckPing (url : String)
deriving DecidableEq

/-- Whether an event is a call to client.delete_db_instance. -/
def Event.isDeleteInstance : Event → Bool
  | .deleteInstance _ _ => true
  | _ => false

/-- Whether an event is an rsync invocation. -/
def Event.isRsync : Event → Bool
  | .rsync _ _ _ => true
  | _ => false

/-- Whether an event is the deletion of a local file. -/
def Event.isUnlink : Event → Bool
  | .unlink _ => true
  | _ => false

/-- Whether an event is a call to client.restore_db_instance_from_db_snapshot. -/
def Event.isRestore : Event → Bool
  | .restoreInstance _ _ => true
  | _ => false

/-- Lookup of a path in the filesystem. -/
def fsFind (fs : FS) (p : String) : Option FileData :=
  (fs.find? (fun e => e.1 == p)).map (fun e => e.2)

/-- Removal of a path from the filesystem (Path.unlink, line 217). -/
def fsUnlink (fs : FS) (p : String) : FS :=
  fs.filter (fun e => e.1 != p)

/-- stat.S_IRUSR: owner read permission bit, 0o400. -/
def S_IRUSR : Nat := 256

/-- stat.S_IWUSR: owner write permission bit, 0o200. -/
def S_IWUSR : Nat := 128

/-- mode = stat.S_IRUSR | stat.S_IWUSR (line 119): owner read/write only. -/
def dumpFileMode : Nat := S_IRUSR ||| S_IWUSR

/-- os.open(path, O_WRONLY|O_CREAT|O_EXCL, mode) (lines 118-119 with
129/156): fails with FileExistsError when the path already exists, leaving
the filesystem untouched; otherwise creates an empty file with the given
permission mode. -/
def openExcl (fs : FS) (p : String) (mode : Nat) : Except Err FS :=
  match fsFind fs p with
  | some _ => .error .fileExists
  | none => .ok ((p, ⟨mode, ""⟩) :: fs)

/-- Python str.startswith on code points, phrased on the underlying
character lists so that concrete instances reduce inside the kernel. -/
def strStartsWith (s pre : String) : Bool := pre.data.isPrefixOf s.data

/-- Lexicographic strict comparison of code-point sequences: the Python
string less-than. -/
def charListLt : List Char → List Char → Bool
  | _, [] => false
  | [], _ :: _ => true
  | a :: as, b :: bs =>
    if a.toNat < b.toNat then true
    else if b.toNat < a.toNat then false
    else charListLt as bs

/-- Python string less-than on code points. -/
def strLt (a b : String) : Bool := charListLt a.data b.data

/-- Python string less-or-equal: by totality of the lexicographic order,
a <= b is the negation of b < a. -/
def strLe (a b : String) : Bool := !strLt b a

/-- Python max() over a list of strings: the running fold that replaces the
current value by each strictly greater element; none models the ValueError
raised on an empty sequence. -/
def pyMax : List String → Option String
  | [] => none
  | x :: xs => some (xs.foldl (fun a b => if strLt a b then b else a) x)

/-- The literal identifier prefix f-string rds:{instance} of line 78. -/
def snapPre (instName : String) : String := "rds:" ++ instName

/-- The list comprehension of lines 75-78: automated snapshots whose
identifier starts with rds:{instance}. -/
def candidateSnapshots (instName : String) (snaps : List String) : List String :=
  snaps.filter (fun s => strStartsWith s (snapPre instName))

/-- max(...) over the candidate identifiers (line 75). -/
def selectLatest (instName : String) (snaps : List String) : Option String :=
  pyMax (candidateSnapshots instName snaps)

/-- Python str.split("-") on a code-point sequence, phrased on the
underlying character list so that concrete instances reduce inside the
kernel. -/
def splitOnDash : List Char → List (List Char)
  | [] => [[]]
  | c :: cs =>
    if c = '-' then [] :: splitOnDash cs
    else
      match splitOnDash cs with
      | [] => [[c]]
      | p :: ps => (c :: p) :: ps

/-- datetime.strptime(latest, f"rds:{instance}-%Y-%m-%d-%H-%M") followed by
snaptime.strftime("%Y%m%d%H%M%S") (lines 80-82): requires the literal
prefix, then five dash-separated all-digit fields of widths 4,2,2,2,2, and
reformats them with seconds fixed to 00. none models the ValueError raised
when the identifier does not match the format. -/
def parseSnap (instName latest : String) : Option String :=
  let pre := snapPre instName ++ "-"
  if strStartsWith latest pre then
    match (splitOnDash (latest.data.drop pre.length)).map String.mk with
    | [y, mo, d, h, mi] =>
      if y.length == 4 && mo.length == 2 && d.length == 2 && h.length == 2 &&
          mi.length == 2 &&
          (y.data ++ mo.data ++ d.data ++ h.data ++ mi.data).all Char.isDigit then
        some (y ++ mo ++ d ++ h ++ mi ++ "00")
      else none
    | _ => none
  else none

/-- The fresh snapshot identifier f-string dbb-{instance}-{timestamp}
(line 59). -/
def freshSnapshotId (instName ts : String) : String :=
  "dbb-" ++ instName ++ "-" ++ ts

/-- The ephemeral instance identifier f-string
{instance}-{timestamp}-fromsnap-{snap} (line 83). -/
def mkDbInstance (instName ts snap : String) : String :=
  instName ++ "-" ++ ts ++ "-fromsnap-" ++ snap

/-- Snapshot Resolver (lines 58-80): either create a fresh snapshot named
dbb-{instance}-{timestamp} and wait for it (in which case snaptime is the
job time itself, so its strftime equals the job timestamp), or select the
lexicographically greatest automated snapshot with the rds:{instance}
identifier start and parse its timestamp. Returns (latest, snap): the chosen
snapshot identifier and the reformatted snapshot timestamp. -/
def resolveSnapshot (cfg : Config) (env : Env) :
    List Event × Except Err (String × String) :=
  if cfg.snapshot then
    let sid := freshSnapshotId cfg.instName env.timestamp
    ([.createSnapshot sid, .waitSnapshot sid], .ok (sid, env.timestamp))
  else
    match selectLatest cfg.instName env.autoSnapshots with
    | none => ([.describeSnapshots cfg.instName], .error .emptyMax)
    | some latest =>
      match parseSnap cfg.instName latest with
      | none => ([.describeSnapshots cfg.instName], .error .strptimeFail)
      | some snap => ([.describeSnapshots cfg.instName], .ok (latest, snap))

/-- Instance Provisioner events (lines 85-113): restore from snapshot, wait
for availability, describe, attach the security group, and sleep unless the
sleep option is 0 (Python: if sleep:). -/
def provisionEvents (cfg : Config) (dbi latest : String) : List Event :=
  [.restoreInstance dbi latest, .waitInstance dbi, .describeInstance dbi,
   .modifyInstance dbi cfg.sg] ++
  (if cfg.sleep ≠ 0 then [Event.sleepFor cfg.sleep] else [])

/-- The passlib modular-crypt-format hash string produced by
pbkdf2_sha256.using(rounds=...).hash(password) (lines 177-178): a dollar,
the scheme name, the rounds, the salt drawn freshly at random for this
call, and the checksum computed by the opaque digest function from rounds,
salt and password. -/
def pbkdf2Hash (digestFn : Nat → String → String → String) (rounds : Nat)
    (salt pw : String) : String :=
  "$pbkdf2-sha256$" ++ toString rounds ++ "$" ++ salt ++ "$" ++
    digestFn rounds salt pw

/-- The SQL statement f-string of line 182, with the leading dollar stripped
from the hash (hash[1:]). -/
def stripStmt (hash : String) : String :=
  "update users set password='" ++ hash.drop 1 ++ "';"

/-- The rounds=150000 customization of line 177. -/
def stripRounds : Nat := 150000

/-- Dump Executor (lines 121-199): branch on the engine read from the
provisioned instance. mysql: exclusively create {instance}/{base}.sql.xz,
pipe mysqldump through xz, and take the mysqldump wait status (the xz status
is recorded in the trace but not consulted). postgres: append -SAFE to the
base name when strip_passwords is set, exclusively create
{instance}/{base}.dump, optionally grant permissions, optionally overwrite
the users table passwords with one precomputed hash, then run pg_dump and
take its return code. Any other engine assigns no returncode, so line 202
raises NameError (Err.unboundReturncode). Returns the dump file path, the
returncode, and the filesystem after file creation. -/
def dumpStep (cfg : Config) (env : Env) (dbi : String) :
    List Event × Except Err (String × Int × FS) :=
  let base := dbi ++ "-" ++ cfg.source
  if env.engine == "mysql" then
    let dumpfile := cfg.instName ++ "/" ++ base ++ ".sql.xz"
    match openExcl env.fs dumpfile dumpFileMode with
    | .error e => ([], .error e)
    | .ok fs1 =>
      ([.runMysqldump cfg.database env.host env.user env.port,
        .runXz env.xzExit],
       .ok (dumpfile, env.dumpExit, fs1))
  else if env.engine == "postgres" then
    let base1 := if cfg.strip_passwords then base ++ "-SAFE" else base
    let dumpfile := cfg.instName ++ "/" ++ base1 ++ ".dump"
    match openExcl env.fs dumpfile dumpFileMode with
    | .error e => ([], .error e)
    | .ok fs1 =>
      ((if cfg.fix_perms then [Event.grantPerms env.host] else []) ++
       (if cfg.strip_passwords then
          [Event.sanitize (stripStmt
            (pbkdf2Hash env.digestFn stripRounds env.salt cfg.password))]
        else []) ++
       [Event.runPgDump cfg.database dumpfile],
       .ok (dumpfile, env.dumpExit, fs1))
  else ([], .error .unboundReturncode)

/-- The rsync destination f-string {sync_and_delete}:/srv/backup/db/{instance}/
(line 205). -/
def rsyncDest (target instName : String) : String :=
  target ++ ":/srv/backup/db/" ++ instName ++ "/"

/-- Lines 206-214: rsync --partial, and on a non-zero status exactly one
retry with rsync --append-verify; the resulting returncode is the status of
the last attempt made. -/
def syncStep (env : Env) (dumpfile dest : String) : List Event × Int :=
  if env.rsyncExit1 == 0 then
    ([.rsync "--partial" dumpfile dest], env.rsyncExit1)
  else
    ([.rsync "--partial" dumpfile dest, .rsync "--append-verify" dumpfile dest],
     env.rsyncExit2)

/-- Lines 202-223: when the dump returncode is 0 and a sync target was
given, run the sync step and delete the local dump file exactly when the
final sync status is 0; in every other case neither rsync nor unlink runs
and the returncode passes through. Returns the added events, the final
returncode, and the final filesystem. -/
def afterDump (cfg : Config) (env : Env) (dumpfile : String) (rc : Int)
    (fs : FS) : List Event × Int × FS :=
  if rc == 0 then
    match cfg.sync_and_delete with
    | some target =>
      let dest := rsyncDest target cfg.instName
      let (evs, rc1) := syncStep env dumpfile dest
      if rc1 == 0 then (evs ++ [Event.unlink dumpfile], rc1, fsUnlink fs dumpfile)
      else (evs, rc1, fs)
    | none => ([], rc, fs)
  else ([], rc, fs)

/-- Cleanup Agent (lines 225-235): delete the ephemeral instance with
SkipFinalSnapshot=True, and, when a fresh snapshot was created, delete that
snapshot too. -/
def cleanupEvents (cfg : Config) (env : Env) (dbi : String) : List Event :=
  Event.deleteInstance dbi true ::
    (if cfg.snapshot then
      [Event.deleteSnapshot (freshSnapshotId cfg.instName env.timestamp)]
     else [])

/-- Healthcheck Reporter (lines 237-240): ping the URL when the final
returncode is 0 and a healthcheck URL was given. -/
def healthEvents (cfg : Config) (rc : Int) : List Event :=
  if rc == 0 then
    match cfg.healthcheck with
    | some url => [Event.healthcheckPing url]
    | none => []
  else []

/-- The destination file path the Dump Executor will exclusively create, as
a function of the engine (lines 127 and 153-155): none for an engine with
no branch. -/
def dumpfilePath (cfg : Config) (env : Env) (dbi : String) : Option String :=
  let base := dbi ++ "-" ++ cfg.source
  if env.engine == "mysql" then
    some (cfg.instName ++ "/" ++ base ++ ".sql.xz")
  else if env.engine == "postgres" then
    some (cfg.instName ++ "/" ++
      (if cfg.strip_passwords then base ++ "-SAFE" else base) ++ ".dump")
  else none

/-- Normal-termination result of a run: the final returncode, the final
filesystem, and the dump file path. -/
structure Done where
  returncode : Int
  fs : FS
  dumpfile : String
deriving DecidableEq

/-- The whole backup command (lines 40-242) as a function from Config and
Env to the event trace and either a normal result or the uncaught Python
exception that terminated the program. An exception skips every later
stage, including cleanup. -/
def run (cfg : Config) (env : Env) : List Event × Except Err Done :=
  match resolveSnapshot cfg env with
  | (ev1, .error e) => (ev1, .error e)
  | (ev1, .ok (latest, snap)) =>
    let dbi := mkDbInstance cfg.instName env.timestamp snap
    let ev2 := provisionEvents cfg dbi latest
    match dumpStep cfg env dbi with
    | (ev3, .error e) => (ev1 ++ ev2 ++ ev3, .error e)
    | (ev3, .ok (dumpfile, rc, fs1)) =>
      let r4 := afterDump cfg env dumpfile rc fs1
      (ev1 ++ ev2 ++ ev3 ++ r4.1 ++ cleanupEvents cfg env dbi ++
        healthEvents cfg r4.2.1,
       .ok ⟨r4.2.1, r4.2.2, dumpfile⟩)

/-- Concrete configuration used to instantiate the theorems below. -/
def cfg1 : Config :=
  { instName := "foo", database := "db", sg := "sg-1", billto := "lil",
    snapshot := true, fix_perms := false, strip_passwords := false,
    password := "changeme", sync_and_delete := none, sleep := 120,
    healthcheck := none, source := "h" }

/-- Concrete environment used to instantiate the theorems below. -/
def env1 : Env :=
  { timestamp := "t", autoSnapshots := [], engine := "mysql",
    host := "H", port := 5432, user := "u", fs := [],
    digestFn := fun _ _ _ => "c0", salt := "SALT", dumpExit := 0, xzExit := 1,
    rsyncExit1 := 0, rsyncExit2 := 0 }

/-- Concrete configuration with password stripping enabled. -/
def cfg3 : Config := { cfg1 with strip_passwords := true }

/-- Concrete postgres environment. -/
def env3 : Env := { env1 with engine := "postgres" }

/-- Concrete environment whose provisioned instance reports engine oracle. -/
def envOracle : Env := { env1 with engine := "oracle" }

/-- Concrete environment whose provisioned instance reports engine aurora. -/
def envAurora : Env := { env1 with engine := "aurora" }

/-- Concrete configuration with the default no-snapshot flag. -/
def cfgNoSnap : Config := { cfg1 with snapshot := false }

/-- Concrete aurora-engine environment with one automated snapshot, for the
non-fresh resolver path. -/
def envAuroraNS : Env :=
  { envAurora with autoSnapshots := ["rds:foo-2024-03-15-00-00"] }

/-- Concrete configuration with a sync-and-delete target. -/
def cfg7 : Config := { cfg1 with sync_and_delete := some "arch" }

/-- Concrete environment whose first rsync attempt fails and whose retry
succeeds. -/
def env7 : Env := { env1 with rsyncExit1 := 12, rsyncExit2 := 0 }

/-!
Theorems. Each claim of the specification gets one theorem (with a witness
when it has hypotheses, and a counterexample when the claim as stated fails
on the code).
-/

/-- C8: the ephemeral instance identifier is the concatenation
instance-timestamp-fromsnap-snaptimestamp (line 83); for two runs with the
same source instance and the same job timestamp, the identifiers coincide
exactly when the snapshot timestamps coincide (distinct only if the
snapshot timestamps differ, otherwise they collide). -/
theorem C8_instance_id_derivation (instName ts s₁ s₂ : String) :
    mkDbInstance instName ts s₁ = instName ++ "-" ++ ts ++ "-fromsnap-" ++ s₁ ∧
    (mkDbInstance instName ts s₁ = mkDbInstance instName ts s₂ ↔ s₁ = s₂) := by
  refine ⟨rfl, ?_, fun h => by rw [h]⟩
  intro h
  have h2 := congrArg String.data h
  simp only [mkDbInstance, String.data_append, List.append_cancel_left_eq] at h2
  exact String.ext h2

/-- Irreflexivity of the lexicographic code-point comparison. -/
lemma charListLt_irrefl : ∀ as : List Char, charListLt as as = false
  | [] => rfl
  | a :: as => by
    simp only [charListLt, Nat.lt_irrefl, if_false]
    exact charListLt_irrefl as

/-- Transitivity of the lexicographic code-point comparison. -/
lemma charListLt_trans : ∀ as bs cs : List Char,
    charListLt as bs = true → charListLt bs cs = true → charListLt as cs = true
  | _, _, [], _, h2 => by simp [charListLt] at h2
  | [], _ :: _, _ :: _, _, _ => rfl
  | _ :: _, [], _, h1, _ => by simp [charListLt] at h1
  | a :: as, b :: bs, c :: cs, h1, h2 => by
    simp only [charListLt] at h1 h2 ⊢
    by_cases hab : a.toNat < b.toNat
    · by_cases hac : a.toNat < c.toNat
      · simp [hac]
      · by_cases hbc : b.toNat < c.toNat
        · omega
        · by_cases hcb : c.toNat < b.toNat
          · simp [hbc, hcb] at h2
          · omega
    · by_cases hba : b.toNat < a.toNat
      · simp [hab, hba] at h1
      · have hab2 : a.toNat = b.toNat := by omega
        simp only [hab, hba, if_false] at h1
        by_cases hbc : b.toNat < c.toNat
        · have hac : a.toNat < c.toNat := by omega
          simp [hac]
        · by_cases hcb : c.toNat < b.toNat
          · simp [hbc, hcb] at h2
          · simp only [hbc, hcb, if_false] at h2
            have hac : ¬a.toNat < c.toNat := by omega
            have hca : ¬c.toNat < a.toNat := by omega
            simp only [hac, hca, if_false]
            exact charListLt_trans as bs cs h1 h2

/-- Equality of characters with equal code points. -/
lemma char_eq_of_toNat_eq {a b : Char} (h : a.toNat = b.toNat) : a = b := by
  apply Char.eq_of_val_eq
  apply UInt32.eq_of_toBitVec_eq
  apply BitVec.eq_of_toNat_eq
  exact h

/-- Trichotomy of the lexicographic code-point comparison. -/
lemma charListLt_trichotomy : ∀ as bs : List Char,
    charListLt as bs = true ∨ charListLt bs as = true ∨ as = bs
  | [], [] => by simp
  | [], _ :: _ => by simp [charListLt]
  | _ :: _, [] => by simp [charListLt]
  | a :: as, b :: bs => by
    rcases Nat.lt_trichotomy a.toNat b.toNat with h | h | h
    · exact Or.inl (by simp [charListLt, h])
    · have hc : a = b := char_eq_of_toNat_eq h
      subst hc
      rcases charListLt_trichotomy as bs with h1 | h1 | h1
      · exact Or.inl (by simp [charListLt, h1])
      · exact Or.inr (Or.inl (by simp [charListLt, h1]))
      · exact Or.inr (Or.inr (by rw [h1]))
    · exact Or.inr (Or.inl (by simp [charListLt, h]))

/-- Asymmetry of the string comparison. -/
lemma strLt_asymm {a b : String} (h : strLt a b = true) : strLt b a = false := by
  by_contra hc
  have h2 : strLt b a = true := by
    cases hb : strLt b a
    · exact absurd hb hc
    · rfl
  have h3 := charListLt_trans a.data b.data a.data h h2
  rw [charListLt_irrefl] at h3
  exact Bool.noConfusion h3

/-- Reflexivity of the string less-or-equal. -/
lemma strLe_refl (a : String) : strLe a a = true := by
  simp [strLe, strLt, charListLt_irrefl]

/-- Transitivity of the string less-or-equal. -/
lemma strLe_trans {a b c : String} (h1 : strLe a b = true)
    (h2 : strLe b c = true) : strLe a c = true := by
  simp only [strLe, strLt, Bool.not_eq_true'] at h1 h2 ⊢
  by_contra hc
  have hca : charListLt c.data a.data = true := by
    cases h : charListLt c.data a.data
    · exact absurd h hc
    · rfl
  rcases charListLt_trichotomy b.data c.data with h3 | h3 | h3
  · have := charListLt_trans b.data c.data a.data h3 hca
    rw [h1] at this
    exact Bool.noConfusion this
  · rw [h3] at h2
    exact Bool.noConfusion h2
  · rw [h3] at h1
    rw [h1] at hca
    exact Bool.noConfusion hca

/-- The max fold keeps a value at least as large as its accumulator and as
every list element, and returns the accumulator or a list element. -/
lemma pyMaxFold_spec : ∀ (xs : List String) (a : String),
    (xs.foldl (fun u v => if strLt u v then v else u) a = a ∨
      xs.foldl (fun u v => if strLt u v then v else u) a ∈ xs) ∧
    strLe a (xs.foldl (fun u v => if strLt u v then v else u) a) = true ∧
    ∀ x ∈ xs, strLe x (xs.foldl (fun u v => if strLt u v then v else u) a) = true
  | [], a => ⟨Or.inl rfl, strLe_refl a, by simp⟩
  | x :: xs, a => by
    have hy : (if strLt a x then x else a) = x ∨ (if strLt a x then x else a) = a := by
      by_cases h : strLt a x = true
      · exact Or.inl (if_pos h)
      · exact Or.inr (if_neg h)
    have step1 : strLe a (if strLt a x then x else a) = true := by
      by_cases h : strLt a x = true
      · rw [if_pos h]; simp [strLe, strLt_asymm h]
      · rw [if_neg h]; exact strLe_refl a
    have step2 : strLe x (if strLt a x then x else a) = true := by
      by_cases h : strLt a x = true
      · rw [if_pos h]; exact strLe_refl x
      · rw [if_neg h]
        have hf : strLt a x = false := by
          cases hx : strLt a x
          · rfl
          · exact absurd hx h
        simp [strLe, hf]
    obtain ⟨hmem, hacc, hall⟩ := pyMaxFold_spec xs (if strLt a x then x else a)
    refine ⟨?_, strLe_trans step1 hacc, ?_⟩
    · simp only [List.foldl_cons]
      rcases hmem with h | h
      · rw [h]
        rcases hy with h2 | h2
        · rw [h2]; exact Or.inr (List.mem_cons_self x xs)
        · rw [h2]; exact Or.inl rfl
      · exact Or.inr (List.mem_cons_of_mem x h)
    · intro y hy2
      simp only [List.foldl_cons]
      rcases List.mem_cons.mp hy2 with rfl | hy3
      · exact strLe_trans step2 hacc
      · exact hall y hy3

/-- pyMax of a list is an element that is greatest in the strLe order, and
exists if and only if the list is nonempty. -/
lemma pyMax_spec (l : List String) :
    (l = [] → pyMax l = none) ∧
    ∀ m, pyMax l = some m → m ∈ l ∧ ∀ s ∈ l, strLe s m = true := by
  constructor
  · intro h; rw [h]; rfl
  · intro m hm
    cases l with
    | nil => exact Option.noConfusion hm
    | cons x xs =>
      obtain ⟨hmem, hacc, hall⟩ := pyMaxFold_spec xs x
      have hmx : m = xs.foldl (fun u v => if strLt u v then v else u) x :=
        (Option.some.inj hm).symm
      subst hmx
      constructor
      · rcases hmem with h | h
        · rw [h]; exact List.mem_cons_self x xs
        · exact List.mem_cons_of_mem x h
      · intro s hs
        rcases List.mem_cons.mp hs with rfl | hs
        · exact hacc
        · exact hall s hs

/-- C10: the non-fresh Snapshot Resolver path filters candidates by string
prefix on the identifier (line 78), not by exact source-instance equality:
for instance foo, a snapshot of the distinct instance foobar passes the
filter and is selected as the lexicographically maximal candidate. -/
theorem C10_prefix_filter_overmatch :
    strStartsWith "rds:foobar-2024-02-02-00-00" (snapPre "foo") = true ∧
    candidateSnapshots "foo"
        ["rds:foo-2024-03-15-00-00", "rds:foobar-2024-02-02-00-00"] =
      ["rds:foo-2024-03-15-00-00", "rds:foobar-2024-02-02-00-00"] ∧
    selectLatest "foo"
        ["rds:foo-2024-03-15-00-00", "rds:foobar-2024-02-02-00-00"] =
      some "rds:foobar-2024-02-02-00-00" := by
  refine ⟨by decide, by decide, by decide⟩

/-- C5: with take-fresh-snapshot unset, the resolver selects the
lexicographically maximal automated snapshot among those whose identifier
starts with rds: followed by the instance name, and fails fatally (the
ValueError of max on an empty sequence) when no candidate exists. -/
theorem C5_snapshot_resolver_max (cfg : Config) (env : Env)
    (hfresh : cfg.snapshot = false) :
    (candidateSnapshots cfg.instName env.autoSnapshots = [] →
      (resolveSnapshot cfg env).2 = Except.error Err.emptyMax) ∧
    (∀ m, selectLatest cfg.instName env.autoSnapshots = some m →
      m ∈ candidateSnapshots cfg.instName env.autoSnapshots ∧
        ∀ s ∈ candidateSnapshots cfg.instName env.autoSnapshots,
          strLe s m = true) ∧
    (candidateSnapshots cfg.instName env.autoSnapshots ≠ [] →
      ∃ m, selectLatest cfg.instName env.autoSnapshots = some m) := by
  refine ⟨?_, ?_, ?_⟩
  · intro hc
    simp [resolveSnapshot, hfresh, selectLatest, hc, pyMax]
  · intro m hm
    exact (pyMax_spec (candidateSnapshots cfg.instName env.autoSnapshots)).2 m hm
  · intro hc
    cases h : candidateSnapshots cfg.instName env.autoSnapshots with
    | nil => exact absurd h hc
    | cons x xs =>
      refine ⟨xs.foldl (fun a b => if strLt a b then b else a) x, ?_⟩
      simp [selectLatest, h, pyMax]

/-- Witness for C5 at the concrete inputs of the specification example:
among rds:foo-2024-01-01-00-00, rds:foo-2024-03-15-00-00 and a bar
snapshot, the resolver for instance foo picks the 03-15 snapshot and is
the greatest candidate. -/
theorem C5_snapshot_resolver_max_witness :
    "rds:foo-2024-03-15-00-00" ∈
        candidateSnapshots "foo"
          ["rds:foo-2024-01-01-00-00", "rds:foo-2024-03-15-00-00",
            "rds:bar-2024-06-30-00-00"] ∧
      ∀ s ∈ candidateSnapshots "foo"
          ["rds:foo-2024-01-01-00-00", "rds:foo-2024-03-15-00-00",
            "rds:bar-2024-06-30-00-00"],
        strLe s "rds:foo-2024-03-15-00-00" = true :=
  ((C5_snapshot_resolver_max
      { cfg1 with snapshot := false }
      { env1 with autoSnapshots :=
          ["rds:foo-2024-01-01-00-00", "rds:foo-2024-03-15-00-00",
            "rds:bar-2024-06-30-00-00"] }
      rfl).2.1 "rds:foo-2024-03-15-00-00" (by decide))

/-- C6: the dump destination is created with exclusive-create semantics
(O_WRONLY|O_CREAT|O_EXCL) and owner-only read/write permission (mode
0o600 = 384): when a file already exists at the target path the open
fails with FileExistsError — and the dump step aborts before any dump
tool runs, leaving the pre-existing file untouched — and when no file
exists the created entry carries mode 384 and no other path changes. -/
theorem C6_exclusive_create :
    (∀ (fs : FS) (p : String) (fd : FileData), fsFind fs p = some fd →
      openExcl fs p dumpFileMode = Except.error Err.fileExists) ∧
    (∀ (fs : FS) (p : String), fsFind fs p = none →
      openExcl fs p dumpFileMode =
        Except.ok ((p, (⟨dumpFileMode, ""⟩ : FileData)) :: fs) ∧
      fsFind ((p, (⟨dumpFileMode, ""⟩ : FileData)) :: fs) p =
        some ⟨dumpFileMode, ""⟩ ∧
      ∀ q, q ≠ p →
        fsFind ((p, (⟨dumpFileMode, ""⟩ : FileData)) :: fs) q = fsFind fs q) ∧
    dumpFileMode = 384 ∧
    (∀ (cfg : Config) (env : Env) (dbi p : String) (fd : FileData),
      dumpfilePath cfg env dbi = some p → fsFind env.fs p = some fd →
      dumpStep cfg env dbi = ([], Except.error Err.fileExists)) := by
  refine ⟨?_, ?_, by decide, ?_⟩
  · intro fs p fd h
    simp [openExcl, h]
  · intro fs p h
    refine ⟨by simp [openExcl, h], ?_, ?_⟩
    · simp [fsFind]
    · intro q hq
      have hne : (p == q) = false := by
        cases hpq : p == q
        · rfl
        · exact absurd (beq_iff_eq.mp hpq).symm hq
      simp [fsFind, List.find?, hne]
  · intro cfg env dbi p fd h1 h2
    by_cases hm : env.engine == "mysql"
    · simp only [dumpfilePath, hm, if_true, Option.some.injEq] at h1
      subst h1
      simp [dumpStep, hm, openExcl, h2]
    · by_cases hp : env.engine == "postgres"
      · simp only [dumpfilePath, hm, hp, if_true, if_false,
          Bool.false_eq_true, Option.some.injEq] at h1
        subst h1
        simp [dumpStep, hm, hp, openExcl, h2]
      · simp [dumpfilePath, hm, hp] at h1

/-- C9: for a MySQL-family dump, the exit status the Dump Executor reports
is exactly the wait status of mysqldump; the xz compressor runs and its
exit status appears in the trace, but the reported status does not depend
on it in any way — so a failing compressor with a zero mysqldump status
still yields a success status. -/
theorem C9_mysql_status_ignores_compressor (cfg : Config) (env : Env)
    (dbi : String) (heng : env.engine = "mysql")
    (hfree : fsFind env.fs
      (cfg.instName ++ "/" ++ (dbi ++ "-" ++ cfg.source) ++ ".sql.xz") = none) :
    (dumpStep cfg env dbi).2 =
      Except.ok (cfg.instName ++ "/" ++ (dbi ++ "-" ++ cfg.source) ++ ".sql.xz",
        env.dumpExit,
        (cfg.instName ++ "/" ++ (dbi ++ "-" ++ cfg.source) ++ ".sql.xz",
          (⟨dumpFileMode, ""⟩ : FileData)) :: env.fs) ∧
    Event.runXz env.xzExit ∈ (dumpStep cfg env dbi).1 ∧
    ∀ x : Int,
      (dumpStep cfg { env with xzExit := x } dbi).2 = (dumpStep cfg env dbi).2 := by
  refine ⟨?_, ?_, ?_⟩ <;> simp [dumpStep, heng, openExcl, hfree]

/-- Witness for C9: a concrete mysql dump whose compressor exits 1 while
mysqldump exits 0 still reports status 0. -/
theorem C9_mysql_status_ignores_compressor_witness :
    (dumpStep cfg1 env1 "i").2 =
      Except.ok ("foo/i-h.sql.xz", (0 : Int),
        [("foo/i-h.sql.xz", (⟨384, ""⟩ : FileData))]) ∧
    Event.runXz 1 ∈ (dumpStep cfg1 env1 "i").1 :=
  ⟨(C9_mysql_status_ignores_compressor cfg1 env1 "i" rfl rfl).1,
   (C9_mysql_status_ignores_compressor cfg1 env1 "i" rfl rfl).2.1⟩

/-- C3 counterexample: passlib draws a fresh random salt on every hash()
call, so two runs with the same configured plaintext (changeme) and the
same iteration count (150000) but different salts produce hashes that are
not byte-identical, refuting cross-run determinism of the replacement
value. -/
theorem C3_fixed_hash_counterexample :
    ¬(pbkdf2Hash (fun _ _ _ => "c0") stripRounds "aaaa" "changeme" =
      pbkdf2Hash (fun _ _ _ => "c0") stripRounds "bbbb" "changeme") := by
  decide

/-- C3 amended: the Sanitizer emits exactly one UPDATE statement built from
the passlib hash of the configured plaintext at 150000 rounds and the salt
drawn for this run; the value is deterministic given the digest function,
the salt and the plaintext (so identical across runs exactly when the salt
also coincides), and the plaintext reaches the statement only through the
hash function. -/
theorem C3_fixed_hash_amended (cfg : Config) (env : Env) (dbi : String)
    (heng : env.engine = "postgres") (hstrip : cfg.strip_passwords = true)
    (hfree : fsFind env.fs
      (cfg.instName ++ "/" ++ ((dbi ++ "-" ++ cfg.source) ++ "-SAFE") ++ ".dump") =
        none) :
    Event.sanitize (stripStmt
        (pbkdf2Hash env.digestFn stripRounds env.salt cfg.password)) ∈
      (dumpStep cfg env dbi).1 ∧
    (∀ (cfg₂ : Config) (env₂ : Env),
      env₂.digestFn = env.digestFn → env₂.salt = env.salt →
      cfg₂.password = cfg.password →
      stripStmt (pbkdf2Hash env₂.digestFn stripRounds env₂.salt cfg₂.password) =
        stripStmt (pbkdf2Hash env.digestFn stripRounds env.salt cfg.password)) := by
  constructor
  · simp [dumpStep, heng, hstrip, openExcl, hfree]
  · intro cfg₂ env₂ h1 h2 h3
    rw [h1, h2, h3]

/-- Witness for C3 amended: the sanitize statement of a concrete stripped
postgres run. -/
theorem C3_fixed_hash_amended_witness :
    Event.sanitize (stripStmt
        (pbkdf2Hash env3.digestFn stripRounds env3.salt cfg3.password)) ∈
      (dumpStep cfg3 env3 "i").1 :=
  (C3_fixed_hash_amended cfg3 env3 "i" rfl rfl rfl).1

/-- Lookup after removal: unlink really removes the path. -/
lemma fsFind_fsUnlink (fs : FS) (p : String) : fsFind (fsUnlink fs p) p = none := by
  induction fs with
  | nil => rfl
  | cons e fs ih =>
    by_cases h : (e.1 != p) = true
    · have hne : (e.1 == p) = false := by
        cases hq : e.1 == p
        · rfl
        · rw [bne, hq] at h
          exact absurd h (by simp)
      simp only [fsUnlink, List.filter_cons, h, if_true]
      simp only [fsFind, List.find?, hne]
      exact ih
    · simp only [fsUnlink, List.filter_cons, h, if_false]
      exact ih

/-- Lookup at the freshly created entry. -/
lemma fsFind_cons_self (fs : FS) (p : String) (fd : FileData) :
    fsFind ((p, fd) :: fs) p = some fd := by
  simp [fsFind]

/-- Inversion of a successful exclusive create. -/
lemma openExcl_ok_inv {fs fs1 : FS} {p : String} {mode : Nat}
    (h : openExcl fs p mode = Except.ok fs1) :
    fsFind fs p = none ∧ fs1 = (p, (⟨mode, ""⟩ : FileData)) :: fs := by
  unfold openExcl at h
  split at h
  · exact Except.noConfusion h
  · rename_i hnone
    exact ⟨hnone, (Except.ok.inj h).symm⟩

/-- The Snapshot Resolver events on the non-fresh path. -/
lemma resolve_events_not_fresh (cfg : Config) (env : Env)
    (h : cfg.snapshot = false) :
    (resolveSnapshot cfg env).1 = [Event.describeSnapshots cfg.instName] := by
  unfold resolveSnapshot
  simp only [h, Bool.false_eq_true, if_false]
  split
  · rfl
  · split <;> rfl

/-- The Snapshot Resolver events on the fresh-snapshot path. -/
lemma resolve_events_fresh (cfg : Config) (env : Env)
    (h : cfg.snapshot = true) :
    (resolveSnapshot cfg env).1 =
      [Event.createSnapshot (freshSnapshotId cfg.instName env.timestamp),
       Event.waitSnapshot (freshSnapshotId cfg.instName env.timestamp)] := by
  unfold resolveSnapshot
  simp [h]

/-- Resolver events are neither rsync nor unlink nor instance deletion. -/
lemma resolve_events_quiet (cfg : Config) (env : Env) :
    ∀ e ∈ (resolveSnapshot cfg env).1,
      e.isRsync = false ∧ e.isUnlink = false ∧ e.isDeleteInstance = false := by
  intro e he
  cases h : cfg.snapshot
  · rw [resolve_events_not_fresh cfg env h] at he
    simp only [List.mem_singleton] at he
    subst he
    exact ⟨rfl, rfl, rfl⟩
  · rw [resolve_events_fresh cfg env h] at he
    simp only [List.mem_cons, List.mem_singleton, List.not_mem_nil, or_false] at he
    rcases he with rfl | rfl <;> exact ⟨rfl, rfl, rfl⟩

/-- Provisioner events are neither rsync nor unlink nor instance deletion. -/
lemma provision_events_quiet (cfg : Config) (dbi latest : String) :
    ∀ e ∈ provisionEvents cfg dbi latest,
      e.isRsync = false ∧ e.isUnlink = false ∧ e.isDeleteInstance = false := by
  intro e he
  by_cases h : cfg.sleep = 0
  · simp [provisionEvents, h] at he
    rcases he with rfl | rfl | rfl | rfl <;> exact ⟨rfl, rfl, rfl⟩
  · simp [provisionEvents, h] at he
    rcases he with rfl | rfl | rfl | rfl | rfl <;> exact ⟨rfl, rfl, rfl⟩

/-- Inversion of a dump step that assigned a returncode: the engine was one
of the two supported families, the returncode is the dump tool status, the
file was freshly created with the restricted mode, and no dump-stage event
is an rsync, an unlink or an instance deletion. -/
lemma dumpStep_ok_inv (cfg : Config) (env : Env) (dbi : String)
    {ev3 : List Event} {dumpfile : String} {rc : Int} {fs1 : FS}
    (h : dumpStep cfg env dbi = (ev3, Except.ok (dumpfile, rc, fs1))) :
    rc = env.dumpExit ∧
    fs1 = (dumpfile, (⟨dumpFileMode, ""⟩ : FileData)) :: env.fs ∧
    fsFind env.fs dumpfile = none ∧
    (env.engine = "mysql" ∨ env.engine = "postgres") ∧
    ∀ e ∈ ev3, e.isRsync = false ∧ e.isUnlink = false ∧
      e.isDeleteInstance = false := by
  unfold dumpStep at h
  dsimp only [] at h
  by_cases hm : (env.engine == "mysql") = true
  · rw [if_pos hm] at h
    rcases ho : openExcl env.fs
        (cfg.instName ++ "/" ++ (dbi ++ "-" ++ cfg.source) ++ ".sql.xz")
        dumpFileMode with e | fsx
    · rw [ho] at h
      simp at h
    · rw [ho] at h
      obtain ⟨hfree, hfsx⟩ := openExcl_ok_inv ho
      injection h with hev hok
      injection hok with hok
      injection hok with hdf hok
      injection hok with hrc hfs
      subst hdf
      subst hev
      refine ⟨hrc.symm, by rw [← hfs, hfsx], hfree,
        Or.inl (by simpa using hm), ?_⟩
      intro e he
      simp only [List.mem_cons, List.not_mem_nil, or_false] at he
      rcases he with rfl | rfl <;> exact ⟨rfl, rfl, rfl⟩
  · rw [if_neg hm] at h
    by_cases hp : (env.engine == "postgres") = true
    · rw [if_pos hp] at h
      by_cases hs : cfg.strip_passwords = true
      · rw [if_pos hs] at h
        rcases ho : openExcl env.fs
            (cfg.instName ++ "/" ++ (dbi ++ "-" ++ cfg.source ++ "-SAFE") ++
              ".dump") dumpFileMode with e | fsx
        · rw [ho] at h
          simp at h
        · rw [ho] at h
          obtain ⟨hfree, hfsx⟩ := openExcl_ok_inv ho
          injection h with hev hok
          injection hok with hok
          injection hok with hdf hok
          injection hok with hrc hfs
          subst hdf
          refine ⟨hrc.symm, by rw [← hfs, hfsx], hfree,
            Or.inr (by simpa using hp), ?_⟩
          intro e he
          rw [← hev] at he
          rcases List.mem_append.mp he with he1 | he2
          · rcases List.mem_append.mp he1 with he3 | he4
            · by_cases hf : cfg.fix_perms = true
              · rw [if_pos hf] at he3
                simp only [List.mem_singleton] at he3
                subst he3
                exact ⟨rfl, rfl, rfl⟩
              · rw [if_neg hf] at he3
                exact absurd he3 (List.not_mem_nil e)
            · rw [if_pos hs] at he4
              simp only [List.mem_singleton] at he4
              subst he4
              exact ⟨rfl, rfl, rfl⟩
          · simp only [List.mem_singleton] at he2
            subst he2
            exact ⟨rfl, rfl, rfl⟩
      · rw [if_neg hs] at h
        rcases ho : openExcl env.fs
            (cfg.instName ++ "/" ++ (dbi ++ "-" ++ cfg.source) ++ ".dump")
            dumpFileMode with e | fsx
        · rw [ho] at h
          simp at h
        · rw [ho] at h
          obtain ⟨hfree, hfsx⟩ := openExcl_ok_inv ho
          injection h with hev hok
          injection hok with hok
          injection hok with hdf hok
          injection hok with hrc hfs
          subst hdf
          refine ⟨hrc.symm, by rw [← hfs, hfsx], hfree,
            Or.inr (by simpa using hp), ?_⟩
          intro e he
          rw [← hev] at he
          rcases List.mem_append.mp he with he1 | he2
          · rcases List.mem_append.mp he1 with he3 | he4
            · by_cases hf : cfg.fix_perms = true
              · rw [if_pos hf] at he3
                simp only [List.mem_singleton] at he3
                subst he3
                exact ⟨rfl, rfl, rfl⟩
              · rw [if_neg hf] at he3
                exact absurd he3 (List.not_mem_nil e)
            · rw [if_neg hs] at he4
              exact absurd he4 (List.not_mem_nil e)
          · simp only [List.mem_singleton] at he2
            subst he2
            exact ⟨rfl, rfl, rfl⟩
    · rw [if_neg hp] at h
      simp at h

/-- A failed dump skips the whole transfer block. -/
lemma afterDump_dump_fail (cfg : Config) (env : Env) (dumpfile : String)
    (rc : Int) (fs : FS) (h : rc ≠ 0) :
    afterDump cfg env dumpfile rc fs = ([], rc, fs) := by
  simp [afterDump, h]

/-- Without a sync target nothing is transferred or deleted. -/
lemma afterDump_no_sync (cfg : Config) (env : Env) (dumpfile : String)
    (rc : Int) (fs : FS) (h : cfg.sync_and_delete = none) :
    afterDump cfg env dumpfile rc fs = ([], rc, fs) := by
  unfold afterDump
  split
  · rw [h]
  · rfl

/-- A first rsync attempt that succeeds deletes the artifact. -/
lemma afterDump_sync_first (cfg : Config) (env : Env) (dumpfile : String)
    (fs : FS) (t : String) (hs : cfg.sync_and_delete = some t)
    (h1 : env.rsyncExit1 = 0) :
    afterDump cfg env dumpfile 0 fs =
      ([Event.rsync "--partial" dumpfile (rsyncDest t cfg.instName),
        Event.unlink dumpfile],
       0, fsUnlink fs dumpfile) := by
  simp [afterDump, hs, syncStep, h1]

/-- A failed first attempt followed by a successful verify-and-resume retry
deletes the artifact. -/
lemma afterDump_sync_retry_ok (cfg : Config) (env : Env) (dumpfile : String)
    (fs : FS) (t : String) (hs : cfg.sync_and_delete = some t)
    (h1 : env.rsyncExit1 ≠ 0) (h2 : env.rsyncExit2 = 0) :
    afterDump cfg env dumpfile 0 fs =
      ([Event.rsync "--partial" dumpfile (rsyncDest t cfg.instName),
        Event.rsync "--append-verify" dumpfile (rsyncDest t cfg.instName),
        Event.unlink dumpfile],
       0, fsUnlink fs dumpfile) := by
  simp [afterDump, hs, syncStep, h1, h2]

/-- Two failed attempts leave the artifact and report the last status. -/
lemma afterDump_sync_retry_fail (cfg : Config) (env : Env) (dumpfile : String)
    (fs : FS) (t : String) (hs : cfg.sync_and_delete = some t)
    (h1 : env.rsyncExit1 ≠ 0) (h2 : env.rsyncExit2 ≠ 0) :
    afterDump cfg env dumpfile 0 fs =
      ([Event.rsync "--partial" dumpfile (rsyncDest t cfg.instName),
        Event.rsync "--append-verify" dumpfile (rsyncDest t cfg.instName)],
       env.rsyncExit2, fs) := by
  simp [afterDump, hs, syncStep, h1, h2]

/-- Cleanup events: exactly one instance deletion, with skip-final-snapshot
semantics, plus the fresh-snapshot deletion when one was created; none of
them is an rsync or an unlink. -/
lemma cleanup_events_spec (cfg : Config) (env : Env) (dbi : String) :
    (cleanupEvents cfg env dbi).filter Event.isDeleteInstance =
      [Event.deleteInstance dbi true] ∧
    (∀ e ∈ cleanupEvents cfg env dbi, e.isRsync = false ∧ e.isUnlink = false) ∧
    (cfg.snapshot = true →
      Event.deleteSnapshot (freshSnapshotId cfg.instName env.timestamp) ∈
        cleanupEvents cfg env dbi) := by
  by_cases h : cfg.snapshot = true
  · refine ⟨by simp [cleanupEvents, h, Event.isDeleteInstance], ?_, ?_⟩
    · intro e he
      simp [cleanupEvents, h] at he
      rcases he with rfl | rfl <;> exact ⟨rfl, rfl⟩
    · intro _
      simp [cleanupEvents, h]
  · refine ⟨by simp [cleanupEvents, h, Event.isDeleteInstance], ?_, ?_⟩
    · intro e he
      simp [cleanupEvents, h] at he
      subst he
      exact ⟨rfl, rfl⟩
    · intro hc
      exact absurd hc h

/-- Healthcheck events are neither rsync nor unlink nor instance deletion. -/
lemma health_events_quiet (cfg : Config) (rc : Int) :
    ∀ e ∈ healthEvents cfg rc,
      e.isRsync = false ∧ e.isUnlink = false ∧ e.isDeleteInstance = false := by
  intro e he
  unfold healthEvents at he
  split at he
  · split at he
    · simp only [List.mem_singleton] at he
      subst he
      exact ⟨rfl, rfl, rfl⟩
    · exact absurd he (List.not_mem_nil e)
  · exact absurd he (List.not_mem_nil e)

/-- Decomposition of a normally terminating run into its stages. -/
lemma run_ok_decomp (cfg : Config) (env : Env) (d : Done)
    (h : (run cfg env).2 = Except.ok d) :
    ∃ ev1 latest snap ev3 rc fs1,
      resolveSnapshot cfg env = (ev1, Except.ok (latest, snap)) ∧
      dumpStep cfg env (mkDbInstance cfg.instName env.timestamp snap) =
        (ev3, Except.ok (d.dumpfile, rc, fs1)) ∧
      d.returncode = (afterDump cfg env d.dumpfile rc fs1).2.1 ∧
      d.fs = (afterDump cfg env d.dumpfile rc fs1).2.2 ∧
      (run cfg env).1 =
        ev1 ++
          provisionEvents cfg (mkDbInstance cfg.instName env.timestamp snap)
            latest ++
          ev3 ++ (afterDump cfg env d.dumpfile rc fs1).1 ++
          cleanupEvents cfg env (mkDbInstance cfg.instName env.timestamp snap) ++
          healthEvents cfg (afterDump cfg env d.dumpfile rc fs1).2.1 := by
  rcases hres : resolveSnapshot cfg env with ⟨ev1, r1⟩
  cases r1 with
  | error e =>
    unfold run at h
    rw [hres] at h
    simp at h
  | ok p =>
    rcases p with ⟨latest, snap⟩
    rcases hdump : dumpStep cfg env (mkDbInstance cfg.instName env.timestamp snap)
      with ⟨ev3, r3⟩
    cases r3 with
    | error e =>
      unfold run at h
      rw [hres] at h
      simp only [] at h
      rw [hdump] at h
      simp at h
    | ok q =>
      rcases q with ⟨dumpfile, rc, fs1⟩
      have hrun : run cfg env =
          (ev1 ++
            provisionEvents cfg (mkDbInstance cfg.instName env.timestamp snap)
              latest ++
            ev3 ++ (afterDump cfg env dumpfile rc fs1).1 ++
            cleanupEvents cfg env
              (mkDbInstance cfg.instName env.timestamp snap) ++
            healthEvents cfg (afterDump cfg env dumpfile rc fs1).2.1,
           Except.ok ⟨(afterDump cfg env dumpfile rc fs1).2.1,
             (afterDump cfg env dumpfile rc fs1).2.2, dumpfile⟩) := by
        unfold run
        rw [hres]
        dsimp only []
        rw [hdump]
      rw [hrun] at h
      dsimp only [] at h
      have hd := Except.ok.inj h
      subst hd
      refine ⟨ev1, latest, snap, ev3, rc, fs1, rfl, hdump, rfl, rfl, ?_⟩
      rw [hrun]

/-- Transfer-block events are never instance deletions, and an unlink there
always names the dump file. -/
lemma afterDump_events_transfer_only (cfg : Config) (env : Env)
    (dumpfile : String) (rc : Int) (fs : FS) :
    ∀ e ∈ (afterDump cfg env dumpfile rc fs).1,
      e.isDeleteInstance = false ∧ (e.isUnlink = true → e = Event.unlink dumpfile) := by
  intro e he
  by_cases h0 : rc = 0
  · subst h0
    rcases hsd : cfg.sync_and_delete with _ | t
    · rw [afterDump_no_sync cfg env dumpfile 0 fs hsd] at he
      exact absurd he (List.not_mem_nil e)
    · by_cases h1 : env.rsyncExit1 = 0
      · rw [afterDump_sync_first cfg env dumpfile fs t hsd h1] at he
        rcases List.mem_cons.mp he with rfl | he2
        · exact ⟨rfl, fun hh => Bool.noConfusion hh⟩
        · rcases List.mem_cons.mp he2 with rfl | he3
          · exact ⟨rfl, fun _ => rfl⟩
          · exact absurd he3 (List.not_mem_nil e)
      · by_cases h2 : env.rsyncExit2 = 0
        · rw [afterDump_sync_retry_ok cfg env dumpfile fs t hsd h1 h2] at he
          rcases List.mem_cons.mp he with rfl | he2
          · exact ⟨rfl, fun hh => Bool.noConfusion hh⟩
          · rcases List.mem_cons.mp he2 with rfl | he3
            · exact ⟨rfl, fun hh => Bool.noConfusion hh⟩
            · rcases List.mem_cons.mp he3 with rfl | he4
              · exact ⟨rfl, fun _ => rfl⟩
              · exact absurd he4 (List.not_mem_nil e)
        · rw [afterDump_sync_retry_fail cfg env dumpfile fs t hsd h1 h2] at he
          rcases List.mem_cons.mp he with rfl | he2
          · exact ⟨rfl, fun hh => Bool.noConfusion hh⟩
          · rcases List.mem_cons.mp he2 with rfl | he3
            · exact ⟨rfl, fun hh => Bool.noConfusion hh⟩
            · exact absurd he3 (List.not_mem_nil e)
  · rw [afterDump_dump_fail cfg env dumpfile rc fs h0] at he
    exact absurd he (List.not_mem_nil e)

/-- A list all of whose members fail a predicate filters to nil. -/
lemma filter_nil_of_all_false (p : Event → Bool) (l : List Event)
    (h : ∀ e ∈ l, p e = false) : l.filter p = [] :=
  List.filter_eq_nil_iff.mpr (fun a ha => by rw [h a ha]; exact Bool.noConfusion)

/-- Only a skip-final-snapshot deletion occurs in the cleanup block. -/
lemma cleanup_delete_skipFinal (cfg : Config) (env : Env) (dbi : String) :
    ∀ i b, Event.deleteInstance i b ∈ cleanupEvents cfg env dbi → b = true := by
  intro i b hib
  unfold cleanupEvents at hib
  rcases List.mem_cons.mp hib with heq | htail
  · injection heq
  · by_cases h : cfg.snapshot = true
    · rw [if_pos h] at htail
      simp at htail
    · rw [if_neg h] at htail
      exact absurd htail (List.not_mem_nil _)

/-- C1 amended: whenever the Dump Executor has returned a status (the run
terminates normally), the trace contains exactly one instance-deletion
call, every instance deletion carries SkipFinalSnapshot, and when a fresh
snapshot was created it is deleted too. (The unamended claim also covered
crash paths on which an instance exists but cleanup never runs; see the
counterexample.) -/
theorem C1_cleanup_exactly_once_amended (cfg : Config) (env : Env) (d : Done)
    (h : (run cfg env).2 = Except.ok d) :
    ((run cfg env).1.filter Event.isDeleteInstance).length = 1 ∧
    (∀ i b, Event.deleteInstance i b ∈ (run cfg env).1 → b = true) ∧
    (cfg.snapshot = true →
      Event.deleteSnapshot (freshSnapshotId cfg.instName env.timestamp) ∈
        (run cfg env).1) := by
  obtain ⟨ev1, latest, snap, ev3, rc, fs1, hres, hdump, hrc, hfs, htr⟩ :=
    run_ok_decomp cfg env d h
  obtain ⟨_, _, _, _, q3⟩ := dumpStep_ok_inv cfg env _ hdump
  have q1 : ∀ e ∈ ev1, e.isDeleteInstance = false := by
    intro e he
    exact (resolve_events_quiet cfg env e (by rw [hres]; exact he)).2.2
  have q2 := provision_events_quiet cfg
    (mkDbInstance cfg.instName env.timestamp snap) latest
  have q4 := afterDump_events_transfer_only cfg env d.dumpfile rc fs1
  have q5 := health_events_quiet cfg (afterDump cfg env d.dumpfile rc fs1).2.1
  obtain ⟨c1, c2, c3⟩ := cleanup_events_spec cfg env
    (mkDbInstance cfg.instName env.timestamp snap)
  refine ⟨?_, ?_, ?_⟩
  · rw [htr]
    rw [List.filter_append, List.filter_append, List.filter_append,
      List.filter_append, List.filter_append]
    rw [filter_nil_of_all_false _ ev1 q1,
      filter_nil_of_all_false _ _ (fun e he => (q2 e he).2.2),
      filter_nil_of_all_false _ ev3 (fun e he => (q3 e he).2.2),
      filter_nil_of_all_false _ _ (fun e he => (q4 e he).1),
      c1,
      filter_nil_of_all_false _ _ (fun e he => (q5 e he).2.2)]
    rfl
  · intro i b hib
    rw [htr] at hib
    rcases List.mem_append.mp hib with hm | hm
    · rcases List.mem_append.mp hm with hm | hm
      · rcases List.mem_append.mp hm with hm | hm
        · rcases List.mem_append.mp hm with hm | hm
          · rcases List.mem_append.mp hm with hm | hm
            · exact absurd (q1 _ hm) (by simp [Event.isDeleteInstance])
            · exact absurd ((q2 _ hm).2.2) (by simp [Event.isDeleteInstance])
          · exact absurd ((q3 _ hm).2.2) (by simp [Event.isDeleteInstance])
        · exact absurd ((q4 _ hm).1) (by simp [Event.isDeleteInstance])
      · exact cleanup_delete_skipFinal cfg env _ i b hm
    · exact absurd ((q5 _ hm).2.2) (by simp [Event.isDeleteInstance])
  · intro hsnap
    rw [htr]
    exact List.mem_append.mpr (Or.inl (List.mem_append.mpr (Or.inr (c3 hsnap))))

/-- Witness for C1 amended: a concrete normally terminating mysql run
contains exactly one instance deletion. -/
theorem C1_cleanup_exactly_once_amended_witness :
    ((run cfg1 env1).1.filter Event.isDeleteInstance).length = 1 :=
  (C1_cleanup_exactly_once_amended cfg1 env1
    ⟨0, [("foo/foo-t-fromsnap-t-h.sql.xz", ⟨dumpFileMode, ""⟩)],
      "foo/foo-t-fromsnap-t-h.sql.xz"⟩ rfl).1

/-- C1 counterexample: a job whose provisioned instance reports engine
oracle restores the EphemeralInstance, then dies of the unbound-returncode
NameError, and the trace contains no instance deletion at all — the
Cleanup Agent does not run although an EphemeralInstance was created. -/
theorem C1_cleanup_counterexample :
    (∃ e ∈ (run cfg1 envOracle).1, e.isRestore = true) ∧
    (run cfg1 envOracle).2 = Except.error Err.unboundReturncode ∧
    ∀ e ∈ (run cfg1 envOracle).1, e.isDeleteInstance = false := by
  exact ⟨by decide, rfl, by decide⟩

/-- C4 amended: for every job whose Snapshot Resolver succeeded — on either
the fresh-snapshot path or the default automated-snapshot path — an engine
outside the two supported families is fatal (the NameError on the unbound
returncode), but the failure occurs only after the ephemeral instance has
been restored — a cloud resource was already created — and the crash skips
cleanup, so the instance is left behind. -/
theorem C4_unsupported_engine_amended (cfg : Config) (env : Env)
    (ev1 : List Event) (latest snap : String)
    (hm : env.engine ≠ "mysql") (hp : env.engine ≠ "postgres")
    (hres : resolveSnapshot cfg env = (ev1, Except.ok (latest, snap))) :
    (run cfg env).2 = Except.error Err.unboundReturncode ∧
    Event.restoreInstance
        (mkDbInstance cfg.instName env.timestamp snap) latest ∈
      (run cfg env).1 ∧
    ∀ e ∈ (run cfg env).1, e.isDeleteInstance = false := by
  have hds : dumpStep cfg env
      (mkDbInstance cfg.instName env.timestamp snap) =
      ([], Except.error Err.unboundReturncode) := by
    unfold dumpStep
    dsimp only []
    rw [if_neg (by simpa using hm), if_neg (by simpa using hp)]
  have hrun : run cfg env =
      (ev1 ++
        provisionEvents cfg (mkDbInstance cfg.instName env.timestamp snap)
          latest ++ [],
       Except.error Err.unboundReturncode) := by
    unfold run
    rw [hres]
    dsimp only []
    rw [hds]
  refine ⟨by rw [hrun], ?_, ?_⟩
  · rw [hrun]
    refine List.mem_append.mpr (Or.inl (List.mem_append.mpr (Or.inr ?_)))
    unfold provisionEvents
    exact List.mem_append.mpr (Or.inl (List.mem_cons_self _ _))
  · intro e he
    rw [hrun] at he
    rcases List.mem_append.mp he with hm2 | hm2
    · rcases List.mem_append.mp hm2 with hm3 | hm3
      · exact (resolve_events_quiet cfg env e (by rw [hres]; exact hm3)).2.2
      · exact (provision_events_quiet cfg _ _ e hm3).2.2
    · exact absurd hm2 (List.not_mem_nil e)

/-- Witness for C4 amended: a concrete default no-snapshot job whose
resolver selected the automated snapshot rds:foo-2024-03-15-00-00 and
whose provisioned instance reports engine aurora restores the instance
before failing. -/
theorem C4_unsupported_engine_amended_witness :
    Event.restoreInstance
        (mkDbInstance cfgNoSnap.instName envAuroraNS.timestamp
          "20240315000000")
        "rds:foo-2024-03-15-00-00" ∈ (run cfgNoSnap envAuroraNS).1 :=
  (C4_unsupported_engine_amended cfgNoSnap envAuroraNS
    [Event.describeSnapshots "foo"] "rds:foo-2024-03-15-00-00"
    "20240315000000" (by decide) (by decide) rfl).2.1

/-- C4 counterexample: with engine aurora the job does fail, but only after
client.restore_db_instance_from_db_snapshot was issued: a cloud resource
was created before the configuration error surfaced, and nothing deletes
it, contradicting abort-before-any-cloud-resources semantics. -/
theorem C4_unsupported_engine_counterexample :
    (run cfg1 envAurora).2 = Except.error Err.unboundReturncode ∧
    (∃ e ∈ (run cfg1 envAurora).1, e.isRestore = true) ∧
    ∀ e ∈ (run cfg1 envAurora).1, e.isDeleteInstance = false := by
  exact ⟨rfl, by decide, by decide⟩

/-- C2: in a normally terminating run the local artifact is unlinked
exactly when a sync target was given, the dump succeeded and some rsync
attempt succeeded; equivalently the artifact is gone from disk under just
that condition; and a failed dump attempts no transfer at all. -/
theorem C2_artifact_deletion_iff (cfg : Config) (env : Env) (d : Done)
    (h : (run cfg env).2 = Except.ok d) :
    (Event.unlink d.dumpfile ∈ (run cfg env).1 ↔
      cfg.sync_and_delete.isSome = true ∧ env.dumpExit = 0 ∧
        (env.rsyncExit1 = 0 ∨ env.rsyncExit2 = 0)) ∧
    (fsFind d.fs d.dumpfile = none ↔
      cfg.sync_and_delete.isSome = true ∧ env.dumpExit = 0 ∧
        (env.rsyncExit1 = 0 ∨ env.rsyncExit2 = 0)) ∧
    (env.dumpExit ≠ 0 → ∀ e ∈ (run cfg env).1, e.isRsync = false) := by
  obtain ⟨ev1, latest, snap, ev3, rc, fs1, hres, hdump, hrc, hfs, htr⟩ :=
    run_ok_decomp cfg env d h
  obtain ⟨hrcE, hfs1, hfree, _, q3⟩ := dumpStep_ok_inv cfg env _ hdump
  subst hrcE
  have q1 : ∀ e ∈ ev1, e.isRsync = false ∧ e.isUnlink = false := by
    intro e he
    have hq := resolve_events_quiet cfg env e (by rw [hres]; exact he)
    exact ⟨hq.1, hq.2.1⟩
  have q2 := provision_events_quiet cfg
    (mkDbInstance cfg.instName env.timestamp snap) latest
  have q4 := afterDump_events_transfer_only cfg env d.dumpfile env.dumpExit fs1
  obtain ⟨_, c2q, _⟩ := cleanup_events_spec cfg env
    (mkDbInstance cfg.instName env.timestamp snap)
  have hseg : ∀ e, e ∈ (run cfg env).1 →
      (e.isRsync = false ∧ e.isUnlink = false) ∨
      e ∈ (afterDump cfg env d.dumpfile env.dumpExit fs1).1 := by
    intro e he
    rw [htr] at he
    rcases List.mem_append.mp he with hm | hm
    · rcases List.mem_append.mp hm with hm | hm
      · rcases List.mem_append.mp hm with hm | hm
        · rcases List.mem_append.mp hm with hm | hm
          · rcases List.mem_append.mp hm with hm | hm
            · exact Or.inl (q1 e hm)
            · exact Or.inl ⟨(q2 e hm).1, (q2 e hm).2.1⟩
          · exact Or.inl ⟨(q3 e hm).1, (q3 e hm).2.1⟩
        · exact Or.inr hm
      · exact Or.inl (c2q e hm)
    · exact Or.inl ⟨(health_events_quiet cfg _ e hm).1,
        (health_events_quiet cfg _ e hm).2.1⟩
  have hUnl : Event.unlink d.dumpfile ∈ (run cfg env).1 ↔
      Event.unlink d.dumpfile ∈
        (afterDump cfg env d.dumpfile env.dumpExit fs1).1 := by
    constructor
    · intro hm
      rcases hseg _ hm with hq | hq
      · exact absurd hq.2 (by simp [Event.isUnlink])
      · exact hq
    · intro hm
      rw [htr]
      exact List.mem_append.mpr (Or.inl (List.mem_append.mpr (Or.inl
        (List.mem_append.mpr (Or.inr hm)))))
  by_cases hd0 : env.dumpExit = 0
  · rcases hsd : cfg.sync_and_delete with _ | t
    · have haft : afterDump cfg env d.dumpfile env.dumpExit fs1 =
          ([], env.dumpExit, fs1) :=
        afterDump_no_sync cfg env d.dumpfile env.dumpExit fs1 hsd
      refine ⟨?_, ?_, fun hne => absurd hd0 hne⟩
      · rw [hUnl, haft]
        simp [hsd]
      · rw [hfs, haft]
        dsimp only []
        rw [hfs1, fsFind_cons_self]
        simp [hsd]
    · rw [hd0] at hUnl hfs ⊢
      by_cases h1 : env.rsyncExit1 = 0
      · have haft := afterDump_sync_first cfg env d.dumpfile fs1 t hsd h1
        refine ⟨?_, ?_, fun hne => absurd rfl hne⟩
        · rw [hUnl, haft]
          simp [hsd, h1]
        · rw [hfs, haft]
          dsimp only []
          rw [fsFind_fsUnlink]
          simp [hsd, h1]
      · by_cases h2 : env.rsyncExit2 = 0
        · have haft := afterDump_sync_retry_ok cfg env d.dumpfile fs1 t hsd h1 h2
          refine ⟨?_, ?_, fun hne => absurd rfl hne⟩
          · rw [hUnl, haft]
            simp [hsd, h2]
          · rw [hfs, haft]
            dsimp only []
            rw [fsFind_fsUnlink]
            simp [hsd, h2]
        · have haft := afterDump_sync_retry_fail cfg env d.dumpfile fs1 t hsd h1 h2
          refine ⟨?_, ?_, fun hne => absurd rfl hne⟩
          · rw [hUnl, haft]
            simp [hsd, h1, h2]
          · rw [hfs, haft]
            dsimp only []
            rw [hfs1, fsFind_cons_self]
            simp [hsd, h1, h2]
  · have haft := afterDump_dump_fail cfg env d.dumpfile env.dumpExit fs1 hd0
    refine ⟨?_, ?_, ?_⟩
    · rw [hUnl, haft]
      simp [hd0]
    · rw [hfs, haft]
      dsimp only []
      rw [hfs1, fsFind_cons_self]
      simp [hd0]
    · intro _ e he
      rcases hseg e he with hq | hq
      · exact hq.1
      · rw [haft] at hq
        exact absurd hq (List.not_mem_nil e)

/-- Witness for C2: in a concrete synced mysql run whose first rsync
succeeds, the artifact is unlinked. -/
theorem C2_artifact_deletion_iff_witness :
    Event.unlink "foo/foo-t-fromsnap-t-h.sql.xz" ∈ (run cfg7 env1).1 :=
  (C2_artifact_deletion_iff cfg7 env1
    ⟨0, [], "foo/foo-t-fromsnap-t-h.sql.xz"⟩ rfl).1.mpr (by decide)

/-- C7: when the dump succeeded, a sync target was given and the first
rsync attempt failed, the trace contains exactly two rsync invocations —
the resumable partial attempt and then the stricter verify-and-resume
retry; a successful retry deletes the artifact with final status 0, while
a second failure leaves the artifact on disk, reports the failing status
as the job returncode, and still proceeds to cleanup instead of dying. -/
theorem C7_transfer_retry (cfg : Config) (env : Env) (d : Done) (t : String)
    (h : (run cfg env).2 = Except.ok d)
    (hsd : cfg.sync_and_delete = some t)
    (hdump0 : env.dumpExit = 0)
    (h1 : env.rsyncExit1 ≠ 0) :
    (run cfg env).1.filter Event.isRsync =
      [Event.rsync "--partial" d.dumpfile (rsyncDest t cfg.instName),
       Event.rsync "--append-verify" d.dumpfile (rsyncDest t cfg.instName)] ∧
    (env.rsyncExit2 = 0 →
      Event.unlink d.dumpfile ∈ (run cfg env).1 ∧
      fsFind d.fs d.dumpfile = none ∧ d.returncode = 0) ∧
    (env.rsyncExit2 ≠ 0 →
      (∀ e ∈ (run cfg env).1, e.isUnlink = false) ∧
      fsFind d.fs d.dumpfile = some ⟨dumpFileMode, ""⟩ ∧
      d.returncode = env.rsyncExit2 ∧
      ∃ i, Event.deleteInstance i true ∈ (run cfg env).1) := by
  obtain ⟨ev1, latest, snap, ev3, rc, fs1, hres, hdump, hrc, hfs, htr⟩ :=
    run_ok_decomp cfg env d h
  obtain ⟨hrcE, hfs1, hfree, _, q3⟩ := dumpStep_ok_inv cfg env _ hdump
  subst hrcE
  rw [hdump0] at htr hrc hfs
  have q1 : ∀ e ∈ ev1,
      e.isRsync = false ∧ e.isUnlink = false ∧ e.isDeleteInstance = false := by
    intro e he
    exact resolve_events_quiet cfg env e (by rw [hres]; exact he)
  have q2 := provision_events_quiet cfg
    (mkDbInstance cfg.instName env.timestamp snap) latest
  obtain ⟨_, c2q, _⟩ := cleanup_events_spec cfg env
    (mkDbInstance cfg.instName env.timestamp snap)
  by_cases h2 : env.rsyncExit2 = 0
  · have haft := afterDump_sync_retry_ok cfg env d.dumpfile fs1 t hsd h1 h2
    rw [haft] at htr hrc hfs
    dsimp only [] at htr hrc hfs
    refine ⟨?_, fun _ => ⟨?_, ?_, hrc⟩, fun hne => absurd h2 hne⟩
    · rw [htr]
      rw [List.filter_append, List.filter_append, List.filter_append,
        List.filter_append, List.filter_append]
      rw [filter_nil_of_all_false _ ev1 (fun e he => (q1 e he).1),
        filter_nil_of_all_false _ _ (fun e he => (q2 e he).1),
        filter_nil_of_all_false _ ev3 (fun e he => (q3 e he).1),
        filter_nil_of_all_false _ _ (fun e he => (c2q e he).1),
        filter_nil_of_all_false _ _
          (fun e he => (health_events_quiet cfg _ e he).1)]
      simp [List.filter, Event.isRsync]
    · rw [htr]
      refine List.mem_append.mpr (Or.inl (List.mem_append.mpr (Or.inl
        (List.mem_append.mpr (Or.inr ?_)))))
      simp
    · rw [hfs]
      exact fsFind_fsUnlink fs1 d.dumpfile
  · have haft := afterDump_sync_retry_fail cfg env d.dumpfile fs1 t hsd h1 h2
    rw [haft] at htr hrc hfs
    dsimp only [] at htr hrc hfs
    refine ⟨?_, fun hh => absurd hh h2, fun _ => ⟨?_, ?_, hrc, ?_⟩⟩
    · rw [htr]
      rw [List.filter_append, List.filter_append, List.filter_append,
        List.filter_append, List.filter_append]
      rw [filter_nil_of_all_false _ ev1 (fun e he => (q1 e he).1),
        filter_nil_of_all_false _ _ (fun e he => (q2 e he).1),
        filter_nil_of_all_false _ ev3 (fun e he => (q3 e he).1),
        filter_nil_of_all_false _ _ (fun e he => (c2q e he).1),
        filter_nil_of_all_false _ _
          (fun e he => (health_events_quiet cfg _ e he).1)]
      simp [List.filter, Event.isRsync]
    · intro e he
      rw [htr] at he
      rcases List.mem_append.mp he with hm | hm
      · rcases List.mem_append.mp hm with hm | hm
        · rcases List.mem_append.mp hm with hm | hm
          · rcases List.mem_append.mp hm with hm | hm
            · rcases List.mem_append.mp hm with hm | hm
              · exact (q1 e hm).2.1
              · exact (q2 e hm).2.1
            · exact (q3 e hm).2.1
          · rcases List.mem_cons.mp hm with rfl | hm2
            · rfl
            · rcases List.mem_cons.mp hm2 with rfl | hm3
              · rfl
              · exact absurd hm3 (List.not_mem_nil e)
        · exact (c2q e hm).2
      · exact (health_events_quiet cfg _ e hm).2.1
    · rw [hfs, hfs1]
      exact fsFind_cons_self _ _ _
    · refine ⟨mkDbInstance cfg.instName env.timestamp snap, ?_⟩
      rw [htr]
      refine List.mem_append.mpr (Or.inl (List.mem_append.mpr (Or.inr ?_)))
      unfold cleanupEvents
      exact List.mem_cons_self _ _

/-- Witness for C7: a concrete run whose first rsync exits 12 and whose
verify-and-resume retry exits 0 syncs twice and deletes the artifact. -/
theorem C7_transfer_retry_witness :
    (run cfg7 env7).1.filter Event.isRsync =
      [Event.rsync "--partial" "foo/foo-t-fromsnap-t-h.sql.xz"
        (rsyncDest "arch" "foo"),
       Event.rsync "--append-verify" "foo/foo-t-fromsnap-t-h.sql.xz"
        (rsyncDest "arch" "foo")] ∧
    Event.unlink "foo/foo-t-fromsnap-t-h.sql.xz" ∈ (run cfg7 env7).1 :=
  ⟨(C7_transfer_retry cfg7 env7
      ⟨0, [], "foo/foo-t-fromsnap-t-h.sql.xz"⟩ "arch" rfl rfl rfl
      (by decide)).1,
   ((C7_transfer_retry cfg7 env7
      ⟨0, [], "foo/foo-t-fromsnap-t-h.sql.xz"⟩ "arch" rfl rfl rfl
      (by decide)).2.1 rfl).1⟩

end RdsBackup
